import Mathlib

/-!
Verification of the sub-conversation task polling hook
(`useSubConversationTaskPolling`) and the per-conversation local storage
contract (`getConversationState` / `setConversationState`) of the OpenHands
front-end.

The polling hook is embedded directly from its source: the task record, the
`refetchInterval` callback, the settlement effect performed by the React
effect body, and one observable step of a polling round.  JavaScript
truthiness on nullable strings (null and the empty string are both falsy) is
modelled explicitly, since the source tests identifiers with `!!x` and
`!x`.

The local-storage module itself is exercised by the repository only through
its unit tests; its definitions here are modelled from the spec (and pinned
by the assertions of those tests): a persisted record is a partial
`ConversationLocalState`, reads merge the stored partial over defaults, and
writes merge the given partial into the existing stored record under a key
formed by a fixed prefix concatenated with the conversation id.
-/

/-- Status values of a V1 app-conversation start task, as observed by the
poller: two non-terminal states and the two terminal states READY and
ERROR. -/
inductive TaskStatus where
  | WAITING_FOR_SANDBOX
  | WORKING
  | READY
  | ERROR
deriving DecidableEq

/-- Embedded from the source task record: the fields of a start task the
hook reads.  `app_conversation_id` is the result reference, present (and
non-empty) only when provisioning succeeded; `detail` is the optional
diagnostic text. -/
structure V1AppConversationStartTask where
  id : String
  status : TaskStatus
  detail : Option String
  app_conversation_id : Option String
deriving DecidableEq

/-- JavaScript truthiness of a nullable string: null and the empty string
are falsy, every other string is truthy.  The source tests identifiers with
double negation. -/
def isTruthy : Option String → Bool
  | none => false
  | some s => s != ""

/-- Embedded from the source `refetchInterval` callback: with no data the
callback returns false (no further poll is scheduled); with a task whose
status is READY or ERROR it returns false (stop polling); otherwise it
returns the fixed 3000 ms delay.  `none` models the JavaScript value
`false`, `some n` models a delay of `n` milliseconds. -/
def refetchInterval (data : Option V1AppConversationStartTask) : Option Nat :=
  match data with
  | none => none
  | some task =>
    if task.status == TaskStatus.READY || task.status == TaskStatus.ERROR then none
    else some 3000

/-- Embedded from the source `enabled` option of the query:
the query polls only while both the task id and the parent conversation id
are truthy. -/
def enabled (taskId parentConversationId : Option String) : Bool :=
  isTruthy taskId && isTruthy parentConversationId

/-- A complete per-conversation local state record, with the four fields the
repository's tests enumerate. -/
structure ConversationLocalState where
  selectedTab : String
  rightPanelShown : Bool
  unpinnedTabs : List String
  subConversationTaskId : Option String
deriving DecidableEq

/-- A partial per-conversation record: each field is optionally present.
The `subConversationTaskId` field is itself nullable, so its presence is
`Option (Option String)` — `some none` models the JavaScript literal that
names the key with value null. -/
structure PartialConversationState where
  selectedTab : Option String
  rightPanelShown : Option Bool
  unpinnedTabs : Option (List String)
  subConversationTaskId : Option (Option String)
deriving DecidableEq

/-- The partial record with no field present. -/
def emptyPartial : PartialConversationState :=
  ⟨none, none, none, none⟩

/-- The partial record the hook writes on settlement: exactly the
JavaScript object literal that sets `subConversationTaskId` to null. -/
def clearTaskPartial : PartialConversationState :=
  ⟨none, none, none, some none⟩

/-- Modelled from the spec: the default `ConversationLocalState` returned
when nothing is persisted.  The field values are pinned by the repository's
local-storage unit tests: selectedTab "editor", rightPanelShown true, no
unpinned tabs, no tracked sub-conversation task. -/
def DEFAULT_CONVERSATION_STATE : ConversationLocalState :=
  ⟨"editor", true, [], none⟩

/-- Present fields of the first argument win, absent fields fall back to
the second — the shape of a JavaScript object spread. -/
def pick {α : Type} (p b : Option α) : Option α :=
  match p with
  | some v => some v
  | none => b

/-- Modelled from the spec: overlay a partial record on a complete base
record; fields present in the partial overwrite, absent fields keep the
base value. -/
def applyPartial (base : ConversationLocalState) (p : PartialConversationState) :
    ConversationLocalState :=
  { selectedTab := p.selectedTab.getD base.selectedTab
    rightPanelShown := p.rightPanelShown.getD base.rightPanelShown
    unpinnedTabs := p.unpinnedTabs.getD base.unpinnedTabs
    subConversationTaskId := p.subConversationTaskId.getD base.subConversationTaskId }

/-- Modelled from the spec: merge a partial update into an existing stored
partial record; fields present in the update overwrite, the rest are
preserved. -/
def mergePartial (base p : PartialConversationState) : PartialConversationState :=
  { selectedTab := pick p.selectedTab base.selectedTab
    rightPanelShown := pick p.rightPanelShown base.rightPanelShown
    unpinnedTabs := pick p.unpinnedTabs base.unpinnedTabs
    subConversationTaskId := pick p.subConversationTaskId base.subConversationTaskId }

/-- The persisted key-value store (browser localStorage), modelled as an
association list from keys to stored partial records. -/
abbrev Storage := List (String × PartialConversationState)

/-- Look a key up in the store. -/
def lookupStorage (s : Storage) (k : String) : Option PartialConversationState :=
  match s with
  | [] => none
  | (k2, v) :: rest => if k2 == k then some v else lookupStorage rest k

/-- Bind a key in the store, replacing any existing binding in place. -/
def insertStorage (s : Storage) (k : String) (v : PartialConversationState) : Storage :=
  match s with
  | [] => [(k, v)]
  | (k2, v2) :: rest =>
    if k2 == k then (k, v) :: rest else (k2, v2) :: insertStorage rest k v

/-- Modelled from the spec: the fixed key stem under which per-conversation
state is stored (the constant the tests call the conversation-state member
of LOCAL_STORAGE_KEYS; its exact literal is not part of the sources shown,
only that it is a fixed string). -/
def LOCAL_STORAGE_KEYS_CONVERSATION_STATE : String := "conversation-state"

/-- Modelled from the spec: the storage key for one conversation — the
fixed stem, a dash, then the conversation id, exactly as the tests build
it. -/
def conversationStateKey (conversationId : String) : String :=
  LOCAL_STORAGE_KEYS_CONVERSATION_STATE ++ "-" ++ conversationId

/-- Modelled from the spec: `getConversationState` returns the defaults
merged with any stored partial record, or the defaults alone when nothing
is stored for the conversation. -/
def getConversationState (s : Storage) (conversationId : String) :
    ConversationLocalState :=
  match lookupStorage s (conversationStateKey conversationId) with
  | none => DEFAULT_CONVERSATION_STATE
  | some p => applyPartial DEFAULT_CONVERSATION_STATE p

/-- Modelled from the spec: `setConversationState` merges the given partial
into the existing stored record (an empty record when nothing is stored)
and writes the result back under the conversation's key. -/
def setConversationState (s : Storage) (conversationId : String)
    (p : PartialConversationState) : Storage :=
  let existing := (lookupStorage s (conversationStateKey conversationId)).getD emptyPartial
  insertStorage s (conversationStateKey conversationId) (mergePartial existing p)

/-- The world the hook's effect acts on: the persisted store, the in-memory
conversation store's sub-conversation task id, and the log of cache
invalidations issued (each entry a compound query key). -/
structure World where
  storage : Storage
  memSubConversationTaskId : Option String
  invalidations : List (List String)
deriving DecidableEq

/-- Embedded from the source React effect body.  If the parent conversation
id is falsy the effect returns at once.  On a READY task with a truthy
result reference it invalidates the parent conversation query key, clears
the task id in persisted storage, and clears the in-memory store; on an
ERROR task it performs both clears but no invalidation; otherwise it does
nothing. -/
def settleEffect (task : Option V1AppConversationStartTask)
    (parentConversationId : Option String) (w : World) : World :=
  match parentConversationId with
  | none => w
  | some pid =>
    if pid == "" then w
    else
      match task with
      | none => w
      | some t =>
        if t.status == TaskStatus.READY && isTruthy t.app_conversation_id then
          { storage := setConversationState w.storage pid clearTaskPartial
            memSubConversationTaskId := none
            invalidations := w.invalidations ++ [["user", "conversation", pid]] }
        else if t.status == TaskStatus.ERROR then
          { storage := setConversationState w.storage pid clearTaskPartial
            memSubConversationTaskId := none
            invalidations := w.invalidations }
        else w

/-- The outcome of one fetch attempt against the task service. -/
inductive FetchResult where
  | success (t : V1AppConversationStartTask)
  | failure (message : String)
deriving DecidableEq

/-- The query state the hook exposes: the latest task data (kept across a
failed fetch) and the latest fetch error. -/
structure QueryState where
  data : Option V1AppConversationStartTask
  error : Option String
deriving DecidableEq

/-- The observable outcome of one polling round. -/
structure HookStepResult where
  fetchIssued : Bool
  query : QueryState
  world : World
  nextInterval : Option Nat
deriving DecidableEq

/-- Embedded from the source hook, one polling round.  When the query is
enabled a fetch is issued: on success the data is replaced, the effect body
runs on the new data, and the refetch interval is computed from it; on
failure the previous data is kept (the query retains its last data and the
source sets retry to false), the error is surfaced, the effect does not
re-run because its data dependency is unchanged, and the refetch interval
is computed from the unchanged data.  When the query is disabled no fetch
is issued, the effect still runs on whatever data exists, and no interval
is scheduled. -/
def hookStep (taskId parentConversationId : Option String)
    (net : FetchResult) (q : QueryState) (w : World) : HookStepResult :=
  if enabled taskId parentConversationId then
    match net with
    | FetchResult.success t =>
      { fetchIssued := true
        query := { data := some t, error := none }
        world := settleEffect (some t) parentConversationId w
        nextInterval := refetchInterval (some t) }
    | FetchResult.failure e =>
      { fetchIssued := true
        query := { data := q.data, error := some e }
        world := w
        nextInterval := refetchInterval q.data }
  else
    { fetchIssued := false
      query := q
      world := settleEffect q.data parentConversationId w
      nextInterval := none }

/-- Looking up the key just written finds exactly the written record. -/
theorem lookupStorage_insertStorage_self (s : Storage) (k : String)
    (v : PartialConversationState) :
    lookupStorage (insertStorage s k v) k = some v := by
  induction s with
  | nil => simp [insertStorage, lookupStorage]
  | cons hd tl ih =>
    obtain ⟨k2, v2⟩ := hd
    by_cases h : k2 == k
    · simp [insertStorage, lookupStorage, h]
    · simp [insertStorage, lookupStorage, h, ih]

/-- Writing a key leaves every other key's binding unchanged. -/
theorem lookupStorage_insertStorage_other (s : Storage) (k k2 : String)
    (v : PartialConversationState) (h : k2 ≠ k) :
    lookupStorage (insertStorage s k v) k2 = lookupStorage s k2 := by
  induction s with
  | nil => simp [insertStorage, lookupStorage, Ne.symm h]
  | cons hd tl ih =>
    obtain ⟨k3, v3⟩ := hd
    by_cases h3 : k3 = k
    · subst h3
      simp [insertStorage, lookupStorage, Ne.symm h]
    · by_cases h32 : k3 = k2
      · subst h32
        simp [insertStorage, lookupStorage, h3, h]
      · simp [insertStorage, lookupStorage, h3, h32, ih]

/-- Re-writing the same key twice keeps only the second binding, in
place. -/
theorem insertStorage_insertStorage_self (s : Storage) (k : String)
    (v v2 : PartialConversationState) :
    insertStorage (insertStorage s k v) k v2 = insertStorage s k v2 := by
  induction s with
  | nil => simp [insertStorage]
  | cons hd tl ih =>
    obtain ⟨k3, v3⟩ := hd
    by_cases h3 : k3 == k
    · simp [insertStorage, h3]
    · simp [insertStorage, h3, ih]

/-- Reading a conversation's state right after a merge-write observes the
partial applied on top of the previously observed state. -/
theorem getConversationState_setConversationState_self (s : Storage)
    (conversationId : String) (p : PartialConversationState) :
    getConversationState (setConversationState s conversationId p) conversationId =
      applyPartial (getConversationState s conversationId) p := by
  unfold getConversationState setConversationState
  rw [lookupStorage_insertStorage_self]
  cases h : lookupStorage s (conversationStateKey conversationId) with
  | none =>
    cases hs : p.selectedTab <;> cases hr : p.rightPanelShown <;>
      cases hu : p.unpinnedTabs <;> cases ht : p.subConversationTaskId <;>
      simp [mergePartial, applyPartial, emptyPartial, pick, hs, hr, hu, ht]
  | some q =>
    cases hs : p.selectedTab <;> cases hr : p.rightPanelShown <;>
      cases hu : p.unpinnedTabs <;> cases ht : p.subConversationTaskId <;>
      simp [mergePartial, applyPartial, pick, hs, hr, hu, ht]

/-- Settlement writes clear the tracked sub-conversation task id: after
merging the clear-partial in, the observed record's task id is null. -/
theorem subTaskId_cleared (s : Storage) (pid : String) :
    (getConversationState (setConversationState s pid clearTaskPartial) pid).subConversationTaskId =
      none := by
  rw [getConversationState_setConversationState_self]
  rfl

/-- Merging the clear-partial a second time changes nothing. -/
theorem mergePartial_clear_idem (e : PartialConversationState) :
    mergePartial (mergePartial e clearTaskPartial) clearTaskPartial =
      mergePartial e clearTaskPartial := by
  simp [mergePartial, clearTaskPartial, pick]

/-- A sample world for concrete evaluations: empty persisted store, the
in-memory store tracking task-123, no invalidations issued yet. -/
def sampleWorld : World :=
  ⟨[], some "task-123", []⟩

/-- A READY task carrying a result reference, as in the repository's test
scenario. -/
def readyTask : V1AppConversationStartTask :=
  ⟨"task-123", TaskStatus.READY, none, some "sub-conv-456"⟩

/-- An ERROR task with a diagnostic detail. -/
def errorTask : V1AppConversationStartTask :=
  ⟨"task-123", TaskStatus.ERROR, some "sandbox failed", none⟩

/-- A task still in progress. -/
def workingTask : V1AppConversationStartTask :=
  ⟨"task-123", TaskStatus.WORKING, none, none⟩

/-- A task still waiting for its sandbox. -/
def waitingTask : V1AppConversationStartTask :=
  ⟨"task-123", TaskStatus.WAITING_FOR_SANDBOX, none, none⟩

/-- Claim C1, counterexample: a polled READY task whose result reference is
the empty string is non-null, yet the effect performs no invalidation and
clears nothing, because the source tests the reference for truthiness, not
for null alone — the world is returned unchanged with an empty invalidation
log and the in-memory task id still set. -/
theorem c1_empty_result_counterexample :
    (some "" : Option String) ≠ none ∧
    enabled (some "task-123") (some "parent-conv-123") = true ∧
    settleEffect (some ⟨"task-123", TaskStatus.READY, none, some ""⟩)
        (some "parent-conv-123") sampleWorld = sampleWorld ∧
    sampleWorld.invalidations = [] ∧
    sampleWorld.memSubConversationTaskId = some "task-123" := by
  refine ⟨by decide, by decide, ?_, rfl, rfl⟩
  rfl

/-- Claim C1 (amended: the result reference must be truthy, that is
non-null and non-empty): for every polled task observed with status READY
and a truthy result reference, under a parent conversation id truthy enough
to have enabled polling, the effect issues exactly one invalidation of the
compound key user-conversation-parent, clears subConversationTaskId in the
persisted record and in the in-memory store, and the refetch interval
callback returns false. -/
theorem c1_ready_settlement (taskId : Option String) (pid : String)
    (t : V1AppConversationStartTask) (w : World)
    (hobs : enabled taskId (some pid) = true)
    (hst : t.status = TaskStatus.READY)
    (hres : isTruthy t.app_conversation_id = true) :
    (settleEffect (some t) (some pid) w).invalidations =
      w.invalidations ++ [["user", "conversation", pid]] ∧
    (getConversationState (settleEffect (some t) (some pid) w).storage pid).subConversationTaskId =
      none ∧
    (settleEffect (some t) (some pid) w).memSubConversationTaskId = none ∧
    refetchInterval (some t) = none := by
  have hpid2 : ¬pid = "" := by
    have h2 := hobs
    simp [enabled, isTruthy] at h2
    exact h2.2
  simp [settleEffect, hpid2, hst, hres, refetchInterval, subTaskId_cleared]

/-- Claim C1 witness: the concrete test scenario — task-123 READY with
result sub-conv-456 for parent-conv-123. -/
theorem c1_ready_settlement_witness :
    enabled (some "task-123") (some "parent-conv-123") = true ∧
    readyTask.status = TaskStatus.READY ∧
    isTruthy readyTask.app_conversation_id = true ∧
    ((settleEffect (some readyTask) (some "parent-conv-123") sampleWorld).invalidations =
        sampleWorld.invalidations ++ [["user", "conversation", "parent-conv-123"]] ∧
      (getConversationState
          (settleEffect (some readyTask) (some "parent-conv-123") sampleWorld).storage
          "parent-conv-123").subConversationTaskId = none ∧
      (settleEffect (some readyTask) (some "parent-conv-123") sampleWorld).memSubConversationTaskId =
        none ∧
      refetchInterval (some readyTask) = none) :=
  ⟨by decide, rfl, by decide,
    c1_ready_settlement (some "task-123") "parent-conv-123" readyTask sampleWorld
      (by decide) rfl (by decide)⟩

/-- Claim C2: for every polled task observed with status ERROR, the effect
clears subConversationTaskId in both the persisted record and the in-memory
store, issues no invalidation (the log is unchanged), and the refetch
interval callback returns false. -/
theorem c2_error_settlement (taskId : Option String) (pid : String)
    (t : V1AppConversationStartTask) (w : World)
    (hobs : enabled taskId (some pid) = true)
    (hst : t.status = TaskStatus.ERROR) :
    (settleEffect (some t) (some pid) w).invalidations = w.invalidations ∧
    (getConversationState (settleEffect (some t) (some pid) w).storage pid).subConversationTaskId =
      none ∧
    (settleEffect (some t) (some pid) w).memSubConversationTaskId = none ∧
    refetchInterval (some t) = none := by
  have hpid2 : ¬pid = "" := by
    have h2 := hobs
    simp [enabled, isTruthy] at h2
    exact h2.2
  simp [settleEffect, hpid2, hst, refetchInterval, subTaskId_cleared]

/-- Claim C2 witness: the concrete test scenario — task-123 ends in ERROR
for parent-conv-123. -/
theorem c2_error_settlement_witness :
    enabled (some "task-123") (some "parent-conv-123") = true ∧
    errorTask.status = TaskStatus.ERROR ∧
    ((settleEffect (some errorTask) (some "parent-conv-123") sampleWorld).invalidations =
        sampleWorld.invalidations ∧
      (getConversationState
          (settleEffect (some errorTask) (some "parent-conv-123") sampleWorld).storage
          "parent-conv-123").subConversationTaskId = none ∧
      (settleEffect (some errorTask) (some "parent-conv-123") sampleWorld).memSubConversationTaskId =
        none ∧
      refetchInterval (some errorTask) = none) :=
  ⟨by decide, rfl,
    c2_error_settlement (some "task-123") "parent-conv-123" errorTask sampleWorld
      (by decide) rfl⟩

/-- Claim C3, counterexample: a transient failure of the very first fetch
(no task data observed yet) leaves state untouched and surfaces the error,
but the refetch interval callback sees no data and returns false, so the
next poll attempt is not scheduled — polling does not continue at the fixed
interval as the claim states. -/
theorem c3_first_failure_counterexample :
    enabled (some "task-123") (some "parent-conv-123") = true ∧
    (hookStep (some "task-123") (some "parent-conv-123")
        (FetchResult.failure "network error") ⟨none, none⟩ sampleWorld).world = sampleWorld ∧
    (hookStep (some "task-123") (some "parent-conv-123")
        (FetchResult.failure "network error") ⟨none, none⟩ sampleWorld).query.error =
      some "network error" ∧
    (hookStep (some "task-123") (some "parent-conv-123")
        (FetchResult.failure "network error") ⟨none, none⟩ sampleWorld).nextInterval = none ∧
    (hookStep (some "task-123") (some "parent-conv-123")
        (FetchResult.failure "network error") ⟨none, none⟩ sampleWorld).nextInterval ≠
      some 3000 := by
  refine ⟨by decide, rfl, rfl, rfl, by decide⟩

/-- Claim C3 (amended: polling continues at the fixed 3000 ms interval only
when a previously fetched task snapshot exists and is non-terminal; when no
data has been observed yet the refetch interval callback returns false and
no further poll is scheduled): a transient fetch failure leaves the world
(persisted record, in-memory store, invalidation log) unchanged, keeps the
previous data, and surfaces the error through the error field. -/
theorem c3_transient_failure (taskId pid : Option String) (e : String)
    (q : QueryState) (w : World)
    (hobs : enabled taskId pid = true) :
    (hookStep taskId pid (FetchResult.failure e) q w).world = w ∧
    (hookStep taskId pid (FetchResult.failure e) q w).query.error = some e ∧
    (hookStep taskId pid (FetchResult.failure e) q w).query.data = q.data ∧
    (∀ t, q.data = some t → t.status ≠ TaskStatus.READY → t.status ≠ TaskStatus.ERROR →
      (hookStep taskId pid (FetchResult.failure e) q w).nextInterval = some 3000) ∧
    (q.data = none → (hookStep taskId pid (FetchResult.failure e) q w).nextInterval = none) := by
  refine ⟨?_, ?_, ?_, ?_, ?_⟩
  · simp [hookStep, hobs]
  · simp [hookStep, hobs]
  · simp [hookStep, hobs]
  · intro t hdata hr he
    simp [hookStep, hobs, hdata, refetchInterval]
    cases hs : t.status <;> simp_all
  · intro hdata
    simp [hookStep, hobs, hdata, refetchInterval]

/-- Claim C3 witness: a failed fetch after a WORKING snapshot was already
observed — state unchanged, error surfaced, next poll in 3000 ms. -/
theorem c3_transient_failure_witness :
    enabled (some "task-123") (some "parent-conv-123") = true ∧
    ((hookStep (some "task-123") (some "parent-conv-123") (FetchResult.failure "network error")
        ⟨some workingTask, none⟩ sampleWorld).world = sampleWorld ∧
      (hookStep (some "task-123") (some "parent-conv-123") (FetchResult.failure "network error")
          ⟨some workingTask, none⟩ sampleWorld).query.error = some "network error" ∧
      (hookStep (some "task-123") (some "parent-conv-123") (FetchResult.failure "network error")
          ⟨some workingTask, none⟩ sampleWorld).query.data =
        (⟨some workingTask, none⟩ : QueryState).data ∧
      (∀ t, (⟨some workingTask, none⟩ : QueryState).data = some t →
        t.status ≠ TaskStatus.READY → t.status ≠ TaskStatus.ERROR →
        (hookStep (some "task-123") (some "parent-conv-123") (FetchResult.failure "network error")
            ⟨some workingTask, none⟩ sampleWorld).nextInterval = some 3000) ∧
      ((⟨some workingTask, none⟩ : QueryState).data = none →
        (hookStep (some "task-123") (some "parent-conv-123") (FetchResult.failure "network error")
            ⟨some workingTask, none⟩ sampleWorld).nextInterval = none)) :=
  ⟨by decide,
    c3_transient_failure (some "task-123") (some "parent-conv-123") "network error"
      ⟨some workingTask, none⟩ sampleWorld (by decide)⟩

/-- Claim C4: a polled task observed in a non-terminal status (WORKING or
WAITING_FOR_SANDBOX) triggers no settlement at all — the world, hence the
persisted record, the in-memory store and the invalidation log, is returned
unchanged — and the refetch interval callback schedules the next poll after
exactly 3000 ms. -/
theorem c4_nonterminal_keeps_polling (pid : Option String)
    (t : V1AppConversationStartTask) (w : World)
    (hst : t.status = TaskStatus.WORKING ∨ t.status = TaskStatus.WAITING_FOR_SANDBOX) :
    settleEffect (some t) pid w = w ∧ refetchInterval (some t) = some 3000 := by
  constructor
  · cases pid with
    | none => rfl
    | some p =>
      by_cases hp : p = "" <;>
        rcases hst with h | h <;> simp [settleEffect, hp, h]
  · rcases hst with h | h <;> simp [refetchInterval, h]

/-- Claim C4 witness: a WORKING task for parent-conv-123 changes nothing
and polls again in 3000 ms. -/
theorem c4_nonterminal_keeps_polling_witness :
    (workingTask.status = TaskStatus.WORKING ∨
      workingTask.status = TaskStatus.WAITING_FOR_SANDBOX) ∧
    (settleEffect (some workingTask) (some "parent-conv-123") sampleWorld = sampleWorld ∧
      refetchInterval (some workingTask) = some 3000) :=
  ⟨Or.inl rfl,
    c4_nonterminal_keeps_polling (some "parent-conv-123") workingTask sampleWorld (Or.inl rfl)⟩

/-- Claim C5: with a null parent conversation id the query is disabled, so
no fetch is issued no matter what the task id is, and the polling round
leaves the world — persisted record, in-memory store, invalidation log —
untouched; with a null task id the query is likewise disabled and no fetch
is issued.  All functions involved are total, so the inert mode never
throws. -/
theorem c5_null_identifiers_inert (taskId pid : Option String)
    (net : FetchResult) (q : QueryState) (w : World) :
    enabled taskId none = false ∧
    (hookStep taskId none net q w).fetchIssued = false ∧
    (hookStep taskId none net q w).world = w ∧
    (hookStep taskId none net q w).world.invalidations = w.invalidations ∧
    enabled none pid = false ∧
    (hookStep none pid net q w).fetchIssued = false := by
  refine ⟨?_, ?_, ?_, ?_, ?_, ?_⟩ <;>
    simp [enabled, isTruthy, hookStep, settleEffect]

/-- Claim C9: a READY task whose result reference is null stops polling —
the refetch interval callback returns false for READY regardless of the
reference — yet no settlement occurs: the world is returned unchanged, so
nothing is invalidated and the tracked task id is not cleared in either
store. -/
theorem c9_ready_without_result (pid : Option String)
    (t : V1AppConversationStartTask) (w : World)
    (hst : t.status = TaskStatus.READY)
    (hres : t.app_conversation_id = none) :
    settleEffect (some t) pid w = w ∧ refetchInterval (some t) = none := by
  constructor
  · cases pid with
    | none => rfl
    | some p =>
      by_cases hp : p = "" <;> simp [settleEffect, hp, hst, hres, isTruthy]
  · simp [refetchInterval, hst]

/-- Claim C9 witness: a READY task with a null result reference leaves the
sample world unchanged and stops polling. -/
theorem c9_ready_without_result_witness :
    (⟨"task-123", TaskStatus.READY, none, none⟩ :
        V1AppConversationStartTask).status = TaskStatus.READY ∧
    (⟨"task-123", TaskStatus.READY, none, none⟩ :
        V1AppConversationStartTask).app_conversation_id = none ∧
    (settleEffect (some ⟨"task-123", TaskStatus.READY, none, none⟩)
        (some "parent-conv-123") sampleWorld = sampleWorld ∧
      refetchInterval (some ⟨"task-123", TaskStatus.READY, none, none⟩) = none) :=
  ⟨rfl, rfl,
    c9_ready_without_result (some "parent-conv-123")
      ⟨"task-123", TaskStatus.READY, none, none⟩ sampleWorld rfl rfl⟩

/-- Claim C6: setConversationState has read-modify-merge semantics — each
field named in the partial overwrites, every unspecified field of the
previously observed record is preserved — and in particular updating only
subConversationTaskId from "old" to "new" leaves selectedTab "changes",
rightPanelShown false and unpinnedTabs with tab-1 untouched. -/
theorem c6_merge_semantics (s : Storage) (conversationId : String)
    (p : PartialConversationState) :
    (getConversationState (setConversationState s conversationId p)
        conversationId).selectedTab =
      p.selectedTab.getD (getConversationState s conversationId).selectedTab ∧
    (getConversationState (setConversationState s conversationId p)
        conversationId).rightPanelShown =
      p.rightPanelShown.getD (getConversationState s conversationId).rightPanelShown ∧
    (getConversationState (setConversationState s conversationId p)
        conversationId).unpinnedTabs =
      p.unpinnedTabs.getD (getConversationState s conversationId).unpinnedTabs ∧
    (getConversationState (setConversationState s conversationId p)
        conversationId).subConversationTaskId =
      p.subConversationTaskId.getD
        (getConversationState s conversationId).subConversationTaskId ∧
    getConversationState
        (setConversationState
          [(conversationStateKey "conv-123",
            ⟨some "changes", some false, some ["tab-1"], some (some "old")⟩)]
          "conv-123" ⟨none, none, none, some (some "new")⟩) "conv-123" =
      ⟨"changes", false, ["tab-1"], some "new"⟩ := by
  refine ⟨?_, ?_, ?_, ?_, by decide⟩ <;>
    rw [getConversationState_setConversationState_self] <;> rfl

/-- Claim C7: the settlement clear is idempotent — applying
setConversationState with the clear-partial a second time leaves the
persisted store exactly as after the first application — and one clear
yields the previously observed record with subConversationTaskId set to
null, so clearing an already-null field is a no-op-equivalent merge. -/
theorem c7_clear_idempotent (s : Storage) (conversationId : String) :
    setConversationState (setConversationState s conversationId clearTaskPartial)
        conversationId clearTaskPartial =
      setConversationState s conversationId clearTaskPartial ∧
    getConversationState (setConversationState s conversationId clearTaskPartial)
        conversationId =
      { getConversationState s conversationId with subConversationTaskId := none } := by
  constructor
  · unfold setConversationState
    rw [lookupStorage_insertStorage_self]
    simp only [Option.getD]
    rw [insertStorage_insertStorage_self, mergePartial_clear_idem]
  · rw [getConversationState_setConversationState_self]
    rfl

/-- Claim C8: getConversationState always yields a complete record — the
defaults overlaid with whatever partial record is stored, the bare defaults
when nothing is stored — and setConversationState writes the merged record
under the key built from the fixed stem and the conversation id. -/
theorem c8_storage_contract (s : Storage) (conversationId : String)
    (p : PartialConversationState) :
    getConversationState s conversationId =
      applyPartial DEFAULT_CONVERSATION_STATE
        ((lookupStorage s (conversationStateKey conversationId)).getD emptyPartial) ∧
    getConversationState [] conversationId = DEFAULT_CONVERSATION_STATE ∧
    conversationStateKey conversationId =
      LOCAL_STORAGE_KEYS_CONVERSATION_STATE ++ "-" ++ conversationId ∧
    lookupStorage (setConversationState s conversationId p)
        (conversationStateKey conversationId) =
      some (mergePartial
        ((lookupStorage s (conversationStateKey conversationId)).getD emptyPartial) p) := by
  refine ⟨?_, rfl, rfl, ?_⟩
  · unfold getConversationState
    cases h : lookupStorage s (conversationStateKey conversationId) with
    | none => rfl
    | some q => rfl
  · unfold setConversationState
    rw [lookupStorage_insertStorage_self]

/-- Claim C10: on an empty store getConversationState returns exactly the
default record — selectedTab "editor", rightPanelShown true, empty
unpinnedTabs, null subConversationTaskId. -/
theorem c10_default_record (conversationId : String) :
    getConversationState [] conversationId =
      ⟨"editor", true, [], none⟩ ∧
    DEFAULT_CONVERSATION_STATE = ⟨"editor", true, [], none⟩ := by
  exact ⟨rfl, rfl⟩
